import Mathlib

/-!
Shallow embedding of the TV-device detection and remote-event
normalization logic of the NuvioStreaming repository
(useTVDevice hook and TVTabLayout component), together with
theorems settling the specification claims about them.

Numbers that the source handles as JavaScript numbers (viewport
dimensions, scale factors) are embedded as rationals; JavaScript's
`Math.round` (round half toward positive infinity) is `jsRound`.
-/

namespace NuvioTV

/-- Host platform descriptor: `Platform.isTV` and `Platform.OS`
from the GUI framework (treated as opaque inputs by the source). -/
structure PlatformInfo where
  isTV : Bool
  os : String
deriving DecidableEq, Repr

/-- Current window dimensions as returned by the host viewport query. -/
structure WindowDims where
  width : ℚ
  height : ℚ
deriving DecidableEq, Repr

/-- Screen dimension thresholds for the TV-detection fallback
(`TV_MIN_WIDTH` in the source). -/
def TV_MIN_WIDTH : ℚ := 1280

/-- Screen dimension threshold `TV_MIN_HEIGHT` from the source. -/
def TV_MIN_HEIGHT : ℚ := 720

/-- Embedding of `detectTVDevice` (src/unnamed/part_000, lines 65-92).
The source reads `Platform` and `Dimensions.get(window)` from ambient
state; here they are explicit parameters. -/
def detectTVDevice (forceTVMode : Bool) (p : PlatformInfo) (d : WindowDims) : Bool :=
  if forceTVMode then
    true
  else if p.isTV then
    true
  else if p.os = "android" then
    let isLandscape : Bool := decide (d.width > d.height)
    let isLargeScreen : Bool := decide (d.width ≥ TV_MIN_WIDTH) && decide (d.height ≥ TV_MIN_HEIGHT)
    if isLandscape && isLargeScreen then
      let aspect : ℚ := d.width / d.height
      decide (aspect ≥ (1.7 : ℚ)) && decide (aspect ≤ (2.4 : ℚ))
    else
      false
  else
    false

/-- JavaScript `Math.round`: floor of x + 1/2 (round half up). -/
def jsRound (q : ℚ) : ℤ := ⌊q + 1 / 2⌋

/-- Font size fields of the TV dimensions record. -/
structure FontSizes where
  title : ℤ
  body : ℤ
  caption : ℤ
deriving DecidableEq, Repr

/-- Spacing fields of the TV dimensions record. -/
structure SpacingSizes where
  small : ℤ
  medium : ℤ
  large : ℤ
deriving DecidableEq, Repr

/-- The record returned by `calculateTVDimensions`. -/
structure TVDimensions where
  posterWidth : ℤ
  posterHeight : ℤ
  iconSize : ℤ
  fontSize : FontSizes
  spacing : SpacingSizes
  focusBorderWidth : ℤ
deriving DecidableEq, Repr

/-- Embedding of `calculateTVDimensions` (src/unnamed/part_000,
lines 97-120); the ambient `Dimensions.get(window)` is the explicit
parameter `d`. Only the width is used by the source. -/
def calculateTVDimensions (d : WindowDims) : TVDimensions :=
  let baseWidth : ℚ := 1920
  let scale : ℚ := d.width / baseWidth
  { posterWidth := jsRound (200 * scale)
    posterHeight := jsRound (300 * scale)
    iconSize := jsRound (32 * scale)
    fontSize :=
      { title := jsRound (28 * scale)
        body := jsRound (20 * scale)
        caption := jsRound (16 * scale) }
    spacing :=
      { small := jsRound (8 * scale)
        medium := jsRound (16 * scale)
        large := jsRound (32 * scale) }
    focusBorderWidth := jsRound (4 * scale) }

/-- Embedding of `isAndroidTV` (src/unnamed/part_000, lines 192-206). -/
def isAndroidTV (p : PlatformInfo) (d : WindowDims) : Bool :=
  if p.isTV then
    true
  else if p.os = "android" then
    if decide (d.width ≥ TV_MIN_WIDTH) && decide (d.height ≥ TV_MIN_HEIGHT) &&
        decide (d.width > d.height) then
      let aspect : ℚ := d.width / d.height
      decide (aspect ≥ (1.7 : ℚ)) && decide (aspect ≤ (2.4 : ℚ))
    else
      false
  else
    false

/-- A hardware notification delivered by the host input layer:
shape { eventType: string, eventKeyAction: integer, tag?: integer }. -/
structure HWEvent where
  eventType : String
  eventKeyAction : ℤ
  tag : Option ℤ
deriving DecidableEq, Repr

/-- The normalized remote event handed to the registered handler
(`TVRemoteEvent` in the source; `eventKeyAction` holds one of the
strings "down", "up", "long-press"). -/
structure TVRemoteEvent where
  eventType : String
  eventKeyAction : String
  tag : Option ℤ
deriving DecidableEq, Repr

/-- The `eventKeyAction` translation inside the subscription callback
(src/unnamed/part_000, lines 160-161): 0 ↦ "down", 1 ↦ "up",
anything else ↦ "long-press". -/
def mapKeyAction (code : ℤ) : String :=
  if code = 0 then "down" else if code = 1 then "up" else "long-press"

/-- The phase vocabulary of the specification. The source encodes
Pressed as "down", Released as "up" and LongPressed as "long-press". -/
inductive Phase where
  | Pressed
  | Released
  | LongPressed
deriving DecidableEq, Repr

/-- Reading of the source's action strings as specification phases. -/
def phaseOfAction : String → Option Phase
  | "down" => some Phase.Pressed
  | "up" => some Phase.Released
  | "long-press" => some Phase.LongPressed
  | _ => none

/-- Embedding of the subscription callback registered by
`useRemoteHandler` (src/unnamed/part_000, lines 154-169): given one
hardware notification (`none` models a missing payload, the
`if (!hwEvent) return` guard), it returns the list of events passed to
the consumer handler during that dispatch. -/
def tvEventCallback : Option HWEvent → List TVRemoteEvent
  | none => []
  | some hw =>
    let event : TVRemoteEvent :=
      { eventType := hw.eventType
        eventKeyAction := mapKeyAction hw.eventKeyAction
        tag := hw.tag }
    if event.eventKeyAction = "down" || event.eventKeyAction = "long-press" then
      [event]
    else
      []

/-- Consumer handlers are identified by a number (the model does not
need the handler's code, only which handler a subscription holds). -/
abbrev HandlerId := ℕ

/-- State of the normalizer's registration lifecycle: the live host
subscriptions (subscription id paired with the handler it forwards to),
the shared `tvEventHandlerRef`, whether the last effect run returned a
cleanup function, and a fresh-id counter. A faithful normalizer has at
most one element in `liveSubs`; the model permits more so that the
single-subscription property is provable rather than assumed. -/
structure NormState where
  liveSubs : List (ℕ × HandlerId)
  refCurrent : Option ℕ
  pendingCleanup : Bool
  nextId : ℕ
deriving DecidableEq, Repr

/-- State before the first effect run: no subscription, empty ref. -/
def initNormState : NormState :=
  { liveSubs := [], refCurrent := none, pendingCleanup := false, nextId := 0 }

/-- The effect cleanup (src/unnamed/part_000, lines 172-177): if the
ref holds a subscription, disable it and clear the ref. -/
def runCleanup (s : NormState) : NormState :=
  match s.refCurrent with
  | some id =>
      { s with
        liveSubs := s.liveSubs.filter (fun p => p.1 != id)
        refCurrent := none }
  | none => s

/-- The effect body (src/unnamed/part_000, lines 144-169): if the
device is not a TV, return early with no cleanup registered; otherwise
create a fresh `TVEventHandler`, store it in the ref, enable it with a
callback closing over the current handler, and register the cleanup. -/
def runEffect (isTV : Bool) (h : HandlerId) (s : NormState) : NormState :=
  if isTV then
    { s with
      liveSubs := s.liveSubs ++ [(s.nextId, h)]
      refCurrent := some s.nextId
      pendingCleanup := true
      nextId := s.nextId + 1 }
  else
    { s with pendingCleanup := false }

/-- Lifecycle events of the owning view: a (re-)render whose effect
dependencies `[handler, isTVDevice]` changed, or the view's unmount. -/
inductive NormEvent where
  | render (isTV : Bool) (h : HandlerId)
  | unmount
deriving DecidableEq, Repr

/-- One lifecycle step, following the host framework's effect
semantics: the previous effect's cleanup (when one was registered) runs
before the next effect body, and on unmount only the cleanup runs. -/
def normStep (s : NormState) : NormEvent → NormState
  | NormEvent.render isTV h =>
      runEffect isTV h (if s.pendingCleanup then runCleanup s else s)
  | NormEvent.unmount =>
      if s.pendingCleanup then
        { runCleanup s with pendingCleanup := false }
      else
        s

/-- The lifecycle state reached after a sequence of events. -/
def normRun (evs : List NormEvent) : NormState :=
  evs.foldl normStep initNormState

/-- The handler invocations caused by delivering one hardware
notification in a given lifecycle state: each live subscription feeds
the notification through the callback to its handler. -/
def handlerInvocations (s : NormState) (o : Option HWEvent) :
    List (HandlerId × TVRemoteEvent) :=
  s.liveSubs.flatMap (fun p => (tvEventCallback o).map (fun e => (p.2, e)))

/-- The memo cells held by one mounted instance of `useTVDevice`:
the `isTVDevice` memo (cached dependency `settings.forceTVMode` with
the cached boolean) and the `tvDimensions` memo (empty dependency
list, so only presence is tracked). -/
structure MemoState where
  tvMemo : Option (Bool × Bool)
  dimsMemo : Option TVDimensions
deriving DecidableEq, Repr

/-- Memo state at mount: nothing cached yet. -/
def initMemoState : MemoState := { tvMemo := none, dimsMemo := none }

/-- One render of `useTVDevice` (src/unnamed/part_000, lines 125-137),
following the host framework's memo semantics: `isTVDevice` is
recomputed only when the cached dependency `forceTVMode` differs from
the current one, and `tvDimensions`, memoized on an empty dependency
list, is computed once at mount and reused afterwards. Returns the
exposed pair (isTVDevice, tvDimensions) and the updated memo state. -/
def renderUseTVDevice (p : PlatformInfo) (d : WindowDims) (forceTVMode : Bool)
    (s : MemoState) : (Bool × TVDimensions) × MemoState :=
  let isTV : Bool :=
    match s.tvMemo with
    | some (dep, v) => if dep == forceTVMode then v else detectTVDevice forceTVMode p d
    | none => detectTVDevice forceTVMode p d
  let dims : TVDimensions :=
    match s.dimsMemo with
    | some v => v
    | none => calculateTVDimensions d
  ((isTV, dims), { tvMemo := some (forceTVMode, isTV), dimsMemo := some dims })

/-- The registered screens of `TVTabLayout`. -/
inductive Screen where
  | Home
  | Library
  | Search
  | Downloads
  | Settings
deriving DecidableEq, Repr

/-- The screen component map of TVTabLayout.tsx (lines 52-58),
embedded as an association list from route key to screen. These are
the OWN keys of the object literal; being a plain object literal, it
additionally inherits the properties of `Object.prototype`. -/
def SCREEN_COMPONENTS : List (String × Screen) :=
  [("Home", Screen.Home), ("Library", Screen.Library), ("Search", Screen.Search),
   ("Downloads", Screen.Downloads), ("Settings", Screen.Settings)]

/-- The property names a plain object literal inherits from
`Object.prototype` (ECMA-262): property access on `SCREEN_COMPONENTS`
with one of these keys yields the inherited function/object, which is
truthy but is not a screen component. -/
def OBJECT_PROTOTYPE_KEYS : List String :=
  ["constructor", "hasOwnProperty", "isPrototypeOf", "propertyIsEnumerable",
   "toLocaleString", "toString", "valueOf", "__defineGetter__", "__defineSetter__",
   "__lookupGetter__", "__lookupSetter__", "__proto__"]

/-- A JavaScript value that `SCREEN_COMPONENTS[activeRoute]` can
evaluate to: a registered screen component, a function/object
inherited from `Object.prototype` (named by its key), or undefined. -/
inductive JSValue where
  | screenComp (s : Screen)
  | protoProp (name : String)
  | undef
deriving DecidableEq, Repr

/-- JavaScript property access on the `SCREEN_COMPONENTS` object
literal: an own key yields its screen component; otherwise the lookup
walks the prototype chain, so an `Object.prototype` property name
yields the inherited value; any other key yields undefined. -/
def jsPropAccess (ownEntries : List (String × Screen)) (key : String) : JSValue :=
  match ownEntries.lookup key with
  | some s => JSValue.screenComp s
  | none =>
      if key ∈ OBJECT_PROTOTYPE_KEYS then JSValue.protoProp key else JSValue.undef

/-- JavaScript truthiness of the values above: only undefined is
falsy; screen components and inherited prototype properties are
objects/functions, hence truthy. -/
def jsTruthy : JSValue → Bool
  | JSValue.undef => false
  | _ => true

/-- `const CurrentScreen = SCREEN_COMPONENTS[activeRoute] || HomeScreen`
(TVTabLayout.tsx, line 92): JavaScript property access (including the
`Object.prototype` chain) followed by the `||` fallback, which engages
only when the accessed value is falsy. -/
def currentScreen (activeRoute : String) : JSValue :=
  let v := jsPropAccess SCREEN_COMPONENTS activeRoute
  if jsTruthy v then v else JSValue.screenComp Screen.Home

/-- Claim C4: For every platform state, operating system, and viewport
dimensions, `detectTVDevice true p d = true`: the force-override flag
short-circuits all other checks. -/
theorem detectTVDevice_force_override :
    ∀ (p : PlatformInfo) (d : WindowDims), detectTVDevice true p d = true := by
  intro p d
  rfl

/-- Claim C3: the normalizer translates `eventKeyAction` codes by exactly the
three-way split code 0 ↦ Pressed ("down"), code 1 ↦ Released ("up"),
every other value ↦ LongPressed ("long-press"). -/
theorem mapKeyAction_three_way :
    ∀ code : ℤ,
      (code = 0 → phaseOfAction (mapKeyAction code) = some Phase.Pressed) ∧
      (code = 1 → phaseOfAction (mapKeyAction code) = some Phase.Released) ∧
      (code ≠ 0 ∧ code ≠ 1 → phaseOfAction (mapKeyAction code) = some Phase.LongPressed) := by
  intro code
  refine ⟨fun h0 => ?_, fun h1 => ?_, fun ⟨h0, h1⟩ => ?_⟩
  · subst h0; rfl
  · subst h1; rfl
  · simp [mapKeyAction, h0, h1, phaseOfAction]

/-- Witness for `mapKeyAction_three_way` at the codes 0, 1 and 7. -/
theorem mapKeyAction_three_way_witness :
    phaseOfAction (mapKeyAction 0) = some Phase.Pressed ∧
    phaseOfAction (mapKeyAction 1) = some Phase.Released ∧
    phaseOfAction (mapKeyAction 7) = some Phase.LongPressed :=
  ⟨(mapKeyAction_three_way 0).1 rfl, (mapKeyAction_three_way 1).2.1 rfl,
    (mapKeyAction_three_way 7).2.2 ⟨by decide, by decide⟩⟩

/-- Claim C2: for every hardware notification, the registered handler is
invoked exactly once if and only if the notification has a payload and
its `eventKeyAction` code is not 1; a missing payload and code 1
(Released) are silently dropped. -/
theorem useRemoteHandler_forward_iff :
    ∀ o : Option HWEvent,
      ((tvEventCallback o).length = 1 ↔
        ∃ hw : HWEvent, o = some hw ∧ hw.eventKeyAction ≠ 1) ∧
      tvEventCallback none = [] ∧
      (∀ hw : HWEvent, hw.eventKeyAction = 1 → tvEventCallback (some hw) = []) := by
  intro o
  refine ⟨?_, rfl, fun hw h1 => by simp [tvEventCallback, mapKeyAction, h1]⟩
  cases o with
  | none => simp [tvEventCallback]
  | some hw =>
    rcases eq_or_ne hw.eventKeyAction 1 with h1 | h1
    · simp [tvEventCallback, mapKeyAction, h1]
    · rcases eq_or_ne hw.eventKeyAction 0 with h0 | h0 <;>
        simp [tvEventCallback, mapKeyAction, h0, h1]

/-- Witness for `useRemoteHandler_forward_iff`: a Select key-down
notification is forwarded once, a Released notification is dropped. -/
theorem useRemoteHandler_forward_iff_witness :
    (tvEventCallback (some { eventType := "select", eventKeyAction := 0, tag := none })).length = 1 ∧
    tvEventCallback (some { eventType := "select", eventKeyAction := 1, tag := none }) = [] :=
  ⟨(useRemoteHandler_forward_iff
      (some { eventType := "select", eventKeyAction := 0, tag := none })).1.mpr
      ⟨{ eventType := "select", eventKeyAction := 0, tag := none }, rfl, by decide⟩,
    (useRemoteHandler_forward_iff
      (some { eventType := "select", eventKeyAction := 1, tag := none })).2.2
      { eventType := "select", eventKeyAction := 1, tag := none } rfl⟩

/-- Counterexample to claim C7: a notification whose `eventType` is not one
of the ten known remote keys ("volumeUp") with key-down action IS
forwarded to the registered handler (here after registering handler 0
on a TV device), contradicting the claim that unknown event types are
not forwarded. -/
theorem unknown_eventType_forwarded_cex :
    handlerInvocations (normRun [NormEvent.render true 0])
        (some { eventType := "volumeUp", eventKeyAction := 0, tag := none }) =
      [(0, { eventType := "volumeUp", eventKeyAction := "down", tag := none })] := by
  rfl

/-- Claim C7 amended: the normalizer applies no filtering on `eventType`:
any notification with `eventKeyAction ≠ 1` is forwarded exactly once,
and every forwarded event carries the host's `eventType` string
unchanged (it is never coerced into one of the known keys). -/
theorem unknown_eventType_passthrough :
    ∀ hw : HWEvent,
      (hw.eventKeyAction ≠ 1 →
        tvEventCallback (some hw) =
          [{ eventType := hw.eventType, eventKeyAction := mapKeyAction hw.eventKeyAction,
             tag := hw.tag }]) ∧
      (∀ e ∈ tvEventCallback (some hw), e.eventType = hw.eventType) := by
  intro hw
  constructor
  · intro h1
    rcases eq_or_ne hw.eventKeyAction 0 with h0 | h0 <;>
      simp [tvEventCallback, mapKeyAction, h0, h1]
  · intro e he
    rcases eq_or_ne hw.eventKeyAction 1 with h1 | h1 <;>
      rcases eq_or_ne hw.eventKeyAction 0 with h0 | h0 <;>
      simp [tvEventCallback, mapKeyAction, h0, h1] at he <;>
      simp [he]

/-- Witness for `unknown_eventType_passthrough` at an unknown
eventType with a long-press action code. -/
theorem unknown_eventType_passthrough_witness :
    tvEventCallback (some { eventType := "channelUp", eventKeyAction := 2, tag := none }) =
      [{ eventType := "channelUp", eventKeyAction := mapKeyAction 2, tag := none }] :=
  (unknown_eventType_passthrough
    { eventType := "channelUp", eventKeyAction := 2, tag := none }).1 (by decide)

/-- Counterexample to claim C10: "toString" is not one of the
registered screen keys, yet the layout does not render the Home screen
for it: property access walks the prototype chain, yields the
inherited truthy `Object.prototype.toString`, and the `|| HomeScreen`
fallback never engages. -/
theorem currentScreen_proto_key_cex :
    "toString" ∉ ["Home", "Library", "Search", "Downloads", "Settings"] ∧
    currentScreen "toString" = JSValue.protoProp "toString" ∧
    currentScreen "toString" ≠ JSValue.screenComp Screen.Home := by
  refine ⟨by decide, rfl, by decide⟩

/-- Claim C10 amended: an active route key that is neither a
registered screen key nor an inherited `Object.prototype` property
name falls back to the Home screen; but an unregistered key naming an
`Object.prototype` property (toString, valueOf, hasOwnProperty, ...)
yields the inherited truthy value, bypassing the fallback, so the
layout does not render Home there (and can fail when the framework
invokes that value as a component). -/
theorem currentScreen_fallback_amended :
    ∀ r : String,
      r ∉ ["Home", "Library", "Search", "Downloads", "Settings"] →
      (r ∉ OBJECT_PROTOTYPE_KEYS → currentScreen r = JSValue.screenComp Screen.Home) ∧
      (r ∈ OBJECT_PROTOTYPE_KEYS → currentScreen r = JSValue.protoProp r) := by
  intro r hr
  simp only [List.mem_cons, List.not_mem_nil, or_false, not_or] at hr
  obtain ⟨h1, h2, h3, h4, h5⟩ := hr
  have e1 : (r == "Home") = false := beq_eq_false_iff_ne.mpr h1
  have e2 : (r == "Library") = false := beq_eq_false_iff_ne.mpr h2
  have e3 : (r == "Search") = false := beq_eq_false_iff_ne.mpr h3
  have e4 : (r == "Downloads") = false := beq_eq_false_iff_ne.mpr h4
  have e5 : (r == "Settings") = false := beq_eq_false_iff_ne.mpr h5
  have hlook : SCREEN_COMPONENTS.lookup r = none := by
    simp [SCREEN_COMPONENTS, List.lookup, e1, e2, e3, e4, e5]
  constructor
  · intro hp
    simp [currentScreen, jsPropAccess, hlook, hp, jsTruthy]
  · intro hp
    simp [currentScreen, jsPropAccess, hlook, hp, jsTruthy]

/-- Witness for `currentScreen_fallback_amended`: the unregistered,
non-prototype route "Profile" falls back to Home, while the
prototype-chain key "toString" yields the inherited property. -/
theorem currentScreen_fallback_amended_witness :
    currentScreen "Profile" = JSValue.screenComp Screen.Home ∧
    currentScreen "toString" = JSValue.protoProp "toString" :=
  ⟨(currentScreen_fallback_amended "Profile" (by decide)).1 (by decide),
    (currentScreen_fallback_amended "toString" (by decide)).2 (by decide)⟩

/-- Claim C1: on Android with the override false and no native TV flag,
`detectTVDevice` classifies as TV exactly when width > height,
width ≥ 1280, height ≥ 720 and width/height ∈ [1.7, 2.4]; in
particular (1920, 1080) classifies as TV and (1280, 800) does not. -/
theorem detectTVDevice_android_iff :
    (∀ w h : ℚ,
      detectTVDevice false { isTV := false, os := "android" } { width := w, height := h } = true ↔
        (w > h ∧ w ≥ 1280 ∧ h ≥ 720 ∧ (1.7 : ℚ) ≤ w / h ∧ w / h ≤ (2.4 : ℚ))) ∧
    detectTVDevice false { isTV := false, os := "android" }
      { width := 1920, height := 1080 } = true ∧
    detectTVDevice false { isTV := false, os := "android" }
      { width := 1280, height := 800 } = false := by
  have key : ∀ w h : ℚ,
      detectTVDevice false { isTV := false, os := "android" } { width := w, height := h } = true ↔
        (w > h ∧ w ≥ 1280 ∧ h ≥ 720 ∧ (1.7 : ℚ) ≤ w / h ∧ w / h ≤ (2.4 : ℚ)) := by
    intro w h
    by_cases h1 : w > h <;> by_cases h2 : w ≥ 1280 <;> by_cases h3 : h ≥ 720 <;>
      simp [detectTVDevice, TV_MIN_WIDTH, TV_MIN_HEIGHT, h1, h2, h3, and_assoc]
  refine ⟨key, ?_, ?_⟩
  · rw [key]
    norm_num
  · rw [Bool.eq_false_iff, Ne, key]
    norm_num

/-- Witness for `detectTVDevice_android_iff`: the iff applied at the
concrete viewport 1600×900 (ratio 16/9), with the right-hand
conditions discharged numerically. -/
theorem detectTVDevice_android_iff_witness :
    detectTVDevice false { isTV := false, os := "android" }
      { width := 1600, height := 900 } = true :=
  (detectTVDevice_android_iff.1 1600 900).mpr (by norm_num)

/-- Claim C5: the parameterless quick detector agrees with the primary
detector called with override false on every platform state and
viewport: `isAndroidTV p d = detectTVDevice false p d`. -/
theorem isAndroidTV_eq_detectTVDevice :
    ∀ (p : PlatformInfo) (d : WindowDims), isAndroidTV p d = detectTVDevice false p d := by
  intro p d
  by_cases hTV : p.isTV = true <;> by_cases hos : p.os = "android" <;>
    by_cases h1 : d.width > d.height <;> by_cases h2 : d.width ≥ TV_MIN_WIDTH <;>
    by_cases h3 : d.height ≥ TV_MIN_HEIGHT <;>
    simp [isAndroidTV, detectTVDevice, hTV, hos, h1, h2, h3]

/-- Claim C6: every field of `calculateTVDimensions` is round(base * (w/1920))
over the fixed base table with no clamping, and at w = 1920 every field
equals its base value unchanged. -/
theorem calculateTVDimensions_round_formula :
    (∀ w h : ℚ,
      calculateTVDimensions { width := w, height := h } =
        { posterWidth := round (200 * (w / 1920))
          posterHeight := round (300 * (w / 1920))
          iconSize := round (32 * (w / 1920))
          fontSize :=
            { title := round (28 * (w / 1920))
              body := round (20 * (w / 1920))
              caption := round (16 * (w / 1920)) }
          spacing :=
            { small := round (8 * (w / 1920))
              medium := round (16 * (w / 1920))
              large := round (32 * (w / 1920)) }
          focusBorderWidth := round (4 * (w / 1920)) }) ∧
    (∀ h : ℚ,
      calculateTVDimensions { width := 1920, height := h } =
        { posterWidth := 200, posterHeight := 300, iconSize := 32,
          fontSize := { title := 28, body := 20, caption := 16 },
          spacing := { small := 8, medium := 16, large := 32 },
          focusBorderWidth := 4 }) := by
  constructor
  · intro w h
    simp [calculateTVDimensions, jsRound, round_eq]
  · intro h
    simp only [calculateTVDimensions, jsRound]
    norm_num

/-- Invariant of the registration lifecycle: either no subscription is
live and the ref is empty, or exactly one subscription is live, the
ref points at it, and a cleanup is registered. -/
def NormInv (s : NormState) : Prop :=
  (s.refCurrent = none ∧ s.liveSubs = []) ∨
  (∃ id h, s.refCurrent = some id ∧ s.liveSubs = [(id, h)] ∧ s.pendingCleanup = true)

theorem normInv_init : NormInv initNormState := Or.inl ⟨rfl, rfl⟩

/-- Running the cleanup from any state satisfying the invariant leaves
no live subscription and an empty ref. -/
theorem normInv_cleanup (s : NormState) (hs : NormInv s) :
    (runCleanup s).liveSubs = [] ∧ (runCleanup s).refCurrent = none := by
  rcases hs with ⟨href, hsubs⟩ | ⟨id, h, href, hsubs, _⟩
  · simp [runCleanup, href, hsubs]
  · simp [runCleanup, href, hsubs]

/-- With no cleanup registered, the invariant forces the inactive
state. -/
theorem normInv_no_pending (s : NormState) (hs : NormInv s)
    (hp : s.pendingCleanup = false) : s.liveSubs = [] ∧ s.refCurrent = none := by
  rcases hs with ⟨href, hsubs⟩ | ⟨_, _, _, _, hpc⟩
  · exact ⟨hsubs, href⟩
  · rw [hp] at hpc; cases hpc

/-- The state seen by the effect body (after the previous cleanup, if
one was registered) has no live subscription and an empty ref. -/
theorem normInv_preEffect (s : NormState) (hs : NormInv s) :
    (if s.pendingCleanup then runCleanup s else s).liveSubs = [] ∧
    (if s.pendingCleanup then runCleanup s else s).refCurrent = none := by
  cases hp : s.pendingCleanup
  · simpa [hp] using normInv_no_pending s hs hp
  · simpa [hp] using normInv_cleanup s hs

/-- Every lifecycle step preserves the invariant. -/
theorem normInv_step (s : NormState) (e : NormEvent) (hs : NormInv s) :
    NormInv (normStep s e) := by
  cases e with
  | render isTV h =>
    obtain ⟨hsubs, href⟩ := normInv_preEffect s hs
    cases isTV
    · exact Or.inl ⟨by simp [normStep, runEffect, href], by simp [normStep, runEffect, hsubs]⟩
    · exact Or.inr ⟨(if s.pendingCleanup then runCleanup s else s).nextId, h,
        by simp [normStep, runEffect], by simp [normStep, runEffect, hsubs], by
          simp [normStep, runEffect]⟩
  | unmount =>
    cases hp : s.pendingCleanup
    · simpa [normStep, hp] using hs
    · obtain ⟨hsubs, href⟩ := normInv_cleanup s hs
      exact Or.inl ⟨by simp [normStep, hp, href], by simp [normStep, hp, hsubs]⟩

/-- The invariant holds along any run from the initial state. -/
theorem normInv_run_aux (evs : List NormEvent) (s : NormState) (hs : NormInv s) :
    NormInv (evs.foldl normStep s) := by
  induction evs generalizing s with
  | nil => exact hs
  | cons e t ih => exact ih _ (normInv_step s e hs)

theorem normInv_run (evs : List NormEvent) : NormInv (normRun evs) :=
  normInv_run_aux evs initNormState normInv_init

/-- Appending one event to a run performs one step on the final state. -/
theorem normRun_append (evs : List NormEvent) (e : NormEvent) :
    normRun (evs ++ [e]) = normStep (normRun evs) e := by
  simp [normRun, List.foldl_append]

/-- Claim C8: in every reachable lifecycle state at most one subscription is
live; after any render every live subscription forwards to the newest
handler (the old subscription was torn down before the new one was
established); and after a teardown no handler invocation occurs on any
further hardware notification. -/
theorem useRemoteHandler_single_subscription :
    (∀ evs : List NormEvent, (normRun evs).liveSubs.length ≤ 1) ∧
    (∀ (evs : List NormEvent) (isTV : Bool) (h : HandlerId),
      ∀ p ∈ (normRun (evs ++ [NormEvent.render isTV h])).liveSubs, p.2 = h) ∧
    (∀ (evs : List NormEvent) (o : Option HWEvent),
      handlerInvocations (normRun (evs ++ [NormEvent.unmount])) o = []) := by
  refine ⟨fun evs => ?_, fun evs isTV h p hp => ?_, fun evs o => ?_⟩
  · rcases normInv_run evs with ⟨_, hsubs⟩ | ⟨_, _, _, hsubs, _⟩ <;> simp [hsubs]
  · rw [normRun_append] at hp
    obtain ⟨hsubs, _⟩ := normInv_preEffect (normRun evs) (normInv_run evs)
    cases isTV <;>
      simp [normStep, runEffect, hsubs] at hp
    simp [hp]
  · rw [normRun_append]
    cases hp : (normRun evs).pendingCleanup
    · obtain ⟨hsubs, _⟩ := normInv_no_pending (normRun evs) (normInv_run evs) hp
      simp [normStep, hp, handlerInvocations, hsubs]
    · obtain ⟨hsubs, _⟩ := normInv_cleanup (normRun evs) (normInv_run evs)
      simp [normStep, hp, handlerInvocations, hsubs]

/-- Witness for `useRemoteHandler_single_subscription`: after handler 3
is replaced by handler 7, the one live subscription forwards to 7. -/
theorem useRemoteHandler_single_subscription_witness :
    ((1, 7) ∈ (normRun ([NormEvent.render true 3] ++ [NormEvent.render true 7])).liveSubs) ∧
    ((1, 7) : ℕ × HandlerId).2 = 7 :=
  ⟨by decide,
    useRemoteHandler_single_subscription.2.1 [NormEvent.render true 3] true 7 (1, 7) (by decide)⟩

/-- Counterexample to claim C9: mounting `useTVDevice` on Android at
1920×1080 and then re-rendering after the viewport changed leaves the
exposed values stale. At 960×540 the exposed metrics differ from
`calculateTVDimensions` at the current width (the dims memo has an
empty dependency list), and at 800×600 the exposed classification is
still true although `detectTVDevice` at the current viewport is false
(the memo is keyed only on the override flag). -/
theorem useTVDevice_stale_metrics_cex :
    ((renderUseTVDevice { isTV := false, os := "android" } { width := 960, height := 540 } false
        (renderUseTVDevice { isTV := false, os := "android" } { width := 1920, height := 1080 }
          false initMemoState).2).1.2 ≠
      calculateTVDimensions { width := 960, height := 540 }) ∧
    ((renderUseTVDevice { isTV := false, os := "android" } { width := 800, height := 600 } false
        (renderUseTVDevice { isTV := false, os := "android" } { width := 1920, height := 1080 }
          false initMemoState).2).1.1 = true ∧
      detectTVDevice false { isTV := false, os := "android" }
        { width := 800, height := 600 } = false) := by
  refine ⟨?_, ?_, ?_⟩
  · intro heq
    have h2 := congrArg TVDimensions.posterWidth heq
    norm_num [renderUseTVDevice, initMemoState, calculateTVDimensions, jsRound] at h2
  · norm_num [renderUseTVDevice, initMemoState, detectTVDevice, TV_MIN_WIDTH, TV_MIN_HEIGHT]
  · norm_num [detectTVDevice, TV_MIN_WIDTH, TV_MIN_HEIGHT]

/-- Claim C9 amended: the mount render computes classification and metrics
from the mount-time inputs, but afterwards the metrics stay pinned to
the mount-time viewport (empty memo dependency list), and the
classification is recomputed only when the override flag changes —
a viewport change alone reuses the cached values. -/
theorem useTVDevice_memo_recompute :
    ∀ (p : PlatformInfo) (d0 d1 : WindowDims) (f0 f1 : Bool),
      ((renderUseTVDevice p d0 f0 initMemoState).1 =
        (detectTVDevice f0 p d0, calculateTVDimensions d0)) ∧
      ((renderUseTVDevice p d1 f1 (renderUseTVDevice p d0 f0 initMemoState).2).1.2 =
        calculateTVDimensions d0) ∧
      ((renderUseTVDevice p d1 f1 (renderUseTVDevice p d0 f0 initMemoState).2).1.1 =
        if f1 = f0 then detectTVDevice f0 p d0 else detectTVDevice f1 p d1) := by
  intro p d0 d1 f0 f1
  refine ⟨rfl, rfl, ?_⟩
  cases f0 <;> cases f1 <;> simp [renderUseTVDevice, initMemoState]

end NuvioTV
